import Mathlib

/-!
Shallow embedding of the task/comment tracking HTTP service
(`backend/app.py`): two in-memory mappings (tasks, comments), CRUD
handlers, and JSON-tree persistence.  Python dicts are modelled as
insertion-ordered association lists with unique keys; the clock readings
taken by `datetime.now(timezone.utc).isoformat()` are passed to each
handler as explicit string parameters, one per call site; the freshly
generated `uuid4` identifiers are likewise explicit parameters.
-/

namespace TaskApp

/-- JSON values: request payload entries and stored field values.
Python stores payload values verbatim, so task/comment fields that come
from the payload keep the full `Json` type. -/
inductive Json where
  | str (s : String)
  | num (n : Int)
  | jsonBool (b : Bool)
  | null
  | arr (items : List Json)
  | obj (fields : List (String × Json))

/-- Python `dict` lookup (`d[k]` / `d.get(k)`) on an association list. -/
def lookupKey {α : Type} : List (String × α) → String → Option α
  | [], _ => none
  | (k', v) :: rest, k => if k' = k then some v else lookupKey rest k

/-- Python `d[k] = v` for a fresh key `k`: appended in insertion order. -/
def insertKey {α : Type} (l : List (String × α)) (k : String) (v : α) :
    List (String × α) :=
  l ++ [(k, v)]

/-- Python `d.pop(k)`: the entry with key `k` is removed. -/
def eraseKey {α : Type} (l : List (String × α)) (k : String) :
    List (String × α) :=
  l.filter (fun p => p.1 ≠ k)

/-- Python in-place mutation of the record stored under key `k` (the
handlers mutate the dict obtained from `tasks.get(...)` by reference):
the entry keeps its position. -/
def setKey {α : Type} (l : List (String × α)) (k : String) (v : α) :
    List (String × α) :=
  l.map (fun p => if p.1 = k then (k, v) else p)

/-- Python `str.strip()`: drop leading and trailing whitespace (only the
result's emptiness is ever used by the handlers). -/
def pyStrip (s : String) : String :=
  ⟨((s.toList.dropWhile Char.isWhitespace).reverse.dropWhile
      Char.isWhitespace).reverse⟩

/-- A task record, as built by `create_task`: `title` and `description`
come from the payload verbatim (so they carry the full `Json` type),
`id` and `created_at` are strings generated by the handler. -/
structure Task where
  id : String
  title : Json
  description : Json
  created_at : String

/-- A comment record, as built by `create_comment`. -/
structure Comment where
  id : String
  task_id : String
  content : Json
  author : Json
  created_at : String
  updated_at : String

/-- The two process-wide mappings (`tasks`, `comments` in `app.py`). -/
structure Store where
  tasks : List (String × Task)
  comments : List (String × Comment)

/-- A parsed JSON request body (a dict; `[]` models both `{}` and an
absent body, which the handlers treat identically via `if not data`). -/
abbrev Payload := List (String × Json)

/-- The only unhandled exception the handlers can raise: calling
`.strip()` on a non-string payload value. -/
inductive PyErr where
  | attributeError
deriving DecidableEq

/-- A handler outcome: either an unhandled exception, or a JSON response
body with an HTTP status code, together with the store afterwards. -/
abbrev HRes := Except PyErr ((Json × Nat) × Store)

/-- `{"error": msg}` response body. -/
def errBody (msg : String) : Json := .obj [("error", .str msg)]

/-- Serialized form of a task, as placed in responses and in the data
file (`jsonify(task)` / `json.dump`). -/
def taskToJson (t : Task) : Json :=
  .obj [("id", .str t.id), ("title", t.title),
        ("description", t.description), ("created_at", .str t.created_at)]

/-- Serialized form of a comment. -/
def commentToJson (c : Comment) : Json :=
  .obj [("id", .str c.id), ("task_id", .str c.task_id),
        ("content", c.content), ("author", c.author),
        ("created_at", .str c.created_at), ("updated_at", .str c.updated_at)]

/-- Reading a task record back from its serialized dict, field by field
as the handlers access it. -/
def taskOfJson (j : Json) : Option Task :=
  match j with
  | .obj fields =>
    match lookupKey fields "id", lookupKey fields "title",
          lookupKey fields "description", lookupKey fields "created_at" with
    | some (.str i), some t, some d, some (.str c) =>
      some { id := i, title := t, description := d, created_at := c }
    | _, _, _, _ => none
  | _ => none

/-- Reading a comment record back from its serialized dict. -/
def commentOfJson (j : Json) : Option Comment :=
  match j with
  | .obj fields =>
    match lookupKey fields "id", lookupKey fields "task_id",
          lookupKey fields "content", lookupKey fields "author",
          lookupKey fields "created_at", lookupKey fields "updated_at" with
    | some (.str i), some (.str tid), some ct, some au,
      some (.str ca), some (.str ua) =>
      some { id := i, task_id := tid, content := ct, author := au,
             created_at := ca, updated_at := ua }
    | _, _, _, _, _, _ => none
  | _ => none

/-- `save_data`: the data file's content as a JSON tree,
`{"tasks": {...}, "comments": {...}}` with each mapping serialized
id-by-id (`json.dump({'tasks': tasks, 'comments': comments}, f)`). -/
def save_data (st : Store) : Json :=
  .obj [("tasks", .obj (st.tasks.map (fun p => (p.1, taskToJson p.2)))),
        ("comments", .obj (st.comments.map (fun p => (p.1, commentToJson p.2))))]

/-- Decode every entry of a serialized mapping, in order. -/
def decodeEntries {α : Type} (dec : Json → Option α) :
    List (String × Json) → Option (List (String × α))
  | [] => some []
  | (k, v) :: rest =>
    match dec v, decodeEntries dec rest with
    | some a, some tail => some ((k, a) :: tail)
    | _, _ => none

/-- `load_data`: reads the file's JSON tree back into the two mappings
(`tasks = data.get('tasks', {})`, `comments = data.get('comments', {})`),
with each stored dict re-interpreted as the record the handlers use;
`none` when the tree does not have the shape `save_data` writes. -/
def load_data (j : Json) : Option Store :=
  match j with
  | .obj fields =>
    match (lookupKey fields "tasks").getD (.obj []),
          (lookupKey fields "comments").getD (.obj []) with
    | .obj te, .obj ce =>
      match decodeEntries taskOfJson te, decodeEntries commentOfJson ce with
      | some ts, some cs => some { tasks := ts, comments := cs }
      | _, _ => none
    | _, _ => none
  | _ => none

/-- `get_comments_by_task`: all comment records whose `task_id` matches. -/
def get_comments_by_task (st : Store) (task_id : String) : List Comment :=
  (st.comments.map Prod.snd).filter (fun c => c.task_id = task_id)

/-- `POST /api/tasks` (`create_task`): requires the `title` key, stores
its value verbatim (no blank check and no type check on the create
path), defaults `description` to `""`. -/
def create_task (data : Payload) (newId now : String) (st : Store) : HRes :=
  if data.isEmpty then .ok ((errBody "Title is required", 400), st)
  else
    match lookupKey data "title" with
    | none => .ok ((errBody "Title is required", 400), st)
    | some titleV =>
      let task : Task :=
        { id := newId, title := titleV,
          description := (lookupKey data "description").getD (.str ""),
          created_at := now }
      .ok ((taskToJson task, 201),
           { st with tasks := insertKey st.tasks newId task })

/-- `GET /api/tasks/{id}` (`get_task`). -/
def get_task (task_id : String) (st : Store) : HRes :=
  match lookupKey st.tasks task_id with
  | none => .ok ((errBody "Task not found", 404), st)
  | some task => .ok ((taskToJson task, 200), st)

/-- Tail of `update_task` after the title check: optional unconditional
`description` replacement, then store and respond. -/
def finishTaskUpdate (task_id : String) (task : Task) (data : Payload)
    (st : Store) : HRes :=
  let task' :=
    match lookupKey data "description" with
    | some v => { task with description := v }
    | none => task
  .ok ((taskToJson task', 200),
       { st with tasks := setKey st.tasks task_id task' })

/-- `PUT /api/tasks/{id}` (`update_task`): 404 when unknown, 400 on an
empty payload, blank-title check (which calls `.strip()` on the payload
value, raising on a non-string), then field updates. -/
def update_task (task_id : String) (data : Payload) (st : Store) : HRes :=
  match lookupKey st.tasks task_id with
  | none => .ok ((errBody "Task not found", 404), st)
  | some task =>
    if data.isEmpty then .ok ((errBody "No data provided", 400), st)
    else
      match lookupKey data "title" with
      | none => finishTaskUpdate task_id task data st
      | some (.str s) =>
        if (pyStrip s).isEmpty then
          .ok ((errBody "Title cannot be empty", 400), st)
        else finishTaskUpdate task_id { task with title := .str s } data st
      | some _ => .error .attributeError

/-- `DELETE /api/tasks/{id}` (`delete_task`): removes the task and pops
every comment whose `task_id` equals the deleted id. -/
def delete_task (task_id : String) (st : Store) : HRes :=
  match lookupKey st.tasks task_id with
  | none => .ok ((errBody "Task not found", 404), st)
  | some task =>
    .ok ((.obj [("message", .str "Task deleted successfully"),
                ("task", taskToJson task)], 200),
         { tasks := eraseKey st.tasks task_id,
           comments := st.comments.filter (fun p => p.2.task_id ≠ task_id) })

/-- `POST /api/tasks/{id}/comments` (`create_comment`): requires a
non-blank `content` (the blank check calls `.strip()`, raising on a
non-string value); the task id from the path is not checked against the
task mapping.  `created_at` and `updated_at` come from two separate
clock readings `now1` and `now2` (two `datetime.now(...)` calls). -/
def create_comment (task_id : String) (data : Payload)
    (newId now1 now2 : String) (st : Store) : HRes :=
  if data.isEmpty then .ok ((errBody "Content is required", 400), st)
  else
    match lookupKey data "content" with
    | none => .ok ((errBody "Content is required", 400), st)
    | some (.str s) =>
      if (pyStrip s).isEmpty then
        .ok ((errBody "Content cannot be empty", 400), st)
      else
        let comment : Comment :=
          { id := newId, task_id := task_id, content := .str s,
            author := (lookupKey data "author").getD (.str "Anonymous"),
            created_at := now1, updated_at := now2 }
        .ok ((commentToJson comment, 201),
             { st with comments := insertKey st.comments newId comment })
    | some _ => .error .attributeError

/-- Python's stable `list.sort(key=lambda x: x['created_at'],
reverse=True)`: stable merge sort under the descending key order. -/
def sortCommentsDesc (cs : List Comment) : List Comment :=
  cs.mergeSort (fun a b => b.created_at ≤ a.created_at)

/-- `GET /api/tasks/{id}/comments` (`get_comments`): envelope with the
task id, the matching comments sorted by `created_at` descending, and
their count; never an error. -/
def get_comments (task_id : String) (st : Store) : HRes :=
  let cs := sortCommentsDesc (get_comments_by_task st task_id)
  .ok ((.obj [("task_id", .str task_id),
              ("comments", .arr (cs.map commentToJson)),
              ("count", .num (cs.length : Int))], 200), st)

/-- `GET /api/comments/{id}` (`get_comment`). -/
def get_comment (comment_id : String) (st : Store) : HRes :=
  match lookupKey st.comments comment_id with
  | none => .ok ((errBody "Comment not found", 404), st)
  | some comment => .ok ((commentToJson comment, 200), st)

/-- Tail of `update_comment` after the content check: optional
unconditional `author` replacement, unconditional `updated_at` refresh,
then store and respond. -/
def finishCommentUpdate (comment_id : String) (comment : Comment)
    (data : Payload) (now : String) (st : Store) : HRes :=
  let c1 :=
    match lookupKey data "author" with
    | some v => { comment with author := v }
    | none => comment
  let c2 := { c1 with updated_at := now }
  .ok ((commentToJson c2, 200),
       { st with comments := setKey st.comments comment_id c2 })

/-- `PUT /api/comments/{id}` (`update_comment`): 404 when unknown, 400
on an empty payload, blank-content check (raising on a non-string
value), optional field updates, and an unconditional `updated_at`
refresh on every successful call. -/
def update_comment (comment_id : String) (data : Payload) (now : String)
    (st : Store) : HRes :=
  match lookupKey st.comments comment_id with
  | none => .ok ((errBody "Comment not found", 404), st)
  | some comment =>
    if data.isEmpty then .ok ((errBody "No data provided", 400), st)
    else
      match lookupKey data "content" with
      | none => finishCommentUpdate comment_id comment data now st
      | some (.str s) =>
        if (pyStrip s).isEmpty then
          .ok ((errBody "Content cannot be empty", 400), st)
        else
          finishCommentUpdate comment_id { comment with content := .str s }
            data now st
      | some _ => .error .attributeError

/-- `DELETE /api/comments/{id}` (`delete_comment`). -/
def delete_comment (comment_id : String) (st : Store) : HRes :=
  match lookupKey st.comments comment_id with
  | none => .ok ((errBody "Comment not found", 404), st)
  | some comment =>
    .ok ((.obj [("message", .str "Comment deleted successfully"),
                ("comment", commentToJson comment)], 200),
         { st with comments := eraseKey st.comments comment_id })

/-! ### Association-list lemmas -/

theorem lookupKey_isEmpty_false {α : Type} {l : List (String × α)} {k : String}
    {v : α} (h : lookupKey l k = some v) : l.isEmpty = false := by
  cases l with
  | nil => simp [lookupKey] at h
  | cons a rest => rfl

theorem lookupKey_insertKey_fresh {α : Type} {l : List (String × α)}
    {k : String} (v : α) (h : lookupKey l k = none) :
    lookupKey (insertKey l k v) k = some v := by
  induction l with
  | nil => simp [insertKey, lookupKey]
  | cons a rest ih =>
    obtain ⟨k', v'⟩ := a
    by_cases hk : k' = k
    · simp [lookupKey, hk] at h
    · simp only [insertKey, List.cons_append, lookupKey, if_neg hk] at *
      exact ih h

theorem lookupKey_eraseKey_self {α : Type} (l : List (String × α)) (k : String) :
    lookupKey (eraseKey l k) k = none := by
  induction l with
  | nil => rfl
  | cons a rest ih =>
    obtain ⟨k', v'⟩ := a
    by_cases hk : k' = k
    · simpa [eraseKey, hk] using ih
    · simpa [eraseKey, lookupKey, hk] using ih

theorem lookupKey_cons {α : Type} (p : String × α) (rest : List (String × α))
    (k : String) :
    lookupKey (p :: rest) k = if p.1 = k then some p.2 else lookupKey rest k :=
  rfl

theorem setKey_cons {α : Type} (p : String × α) (rest : List (String × α))
    (k : String) (v : α) :
    setKey (p :: rest) k v = (if p.1 = k then (k, v) else p) :: setKey rest k v :=
  rfl

theorem lookupKey_setKey {α : Type} (l : List (String × α)) (k : String)
    (v : α) :
    lookupKey (setKey l k v) k = (lookupKey l k).map (fun _ => v) := by
  induction l with
  | nil => rfl
  | cons p rest ih =>
    rw [setKey_cons, lookupKey_cons, lookupKey_cons]
    by_cases hk : p.1 = k
    · simp [hk]
    · simp [hk, ih]

theorem lookupKey_filter_val {α : Type} (g : α → Bool) (l : List (String × α))
    (k : String) (v : α)
    (h : lookupKey (l.filter (fun p => g p.2)) k = some v) : g v = true := by
  induction l with
  | nil => simp [lookupKey] at h
  | cons a rest ih =>
    obtain ⟨k', v'⟩ := a
    by_cases hg : g v' = true
    · rw [List.filter_cons_of_pos (by simpa using hg)] at h
      by_cases hk : k' = k
      · rw [lookupKey, if_pos hk] at h
        cases h
        exact hg
      · rw [lookupKey, if_neg hk] at h
        exact ih h
    · rw [List.filter_cons_of_neg (by simpa using hg)] at h
      exact ih h

theorem lookupKey_filter_val_of {α : Type} (g : α → Bool)
    (l : List (String × α)) (k : String) (v : α)
    (h : lookupKey l k = some v) (hv : g v = true) :
    lookupKey (l.filter (fun p => g p.2)) k = some v := by
  induction l with
  | nil => simp [lookupKey] at h
  | cons a rest ih =>
    obtain ⟨k', v'⟩ := a
    by_cases hk : k' = k
    · rw [lookupKey, if_pos hk] at h
      cases h
      rw [List.filter_cons_of_pos (by simpa using hv), lookupKey, if_pos hk]
    · rw [lookupKey, if_neg hk] at h
      by_cases hg : g v' = true
      · rw [List.filter_cons_of_pos (by simpa using hg), lookupKey, if_neg hk]
        exact ih h
      · rw [List.filter_cons_of_neg (by simpa using hg)]
        exact ih h

/-! ### Serialization lemmas -/

theorem taskOfJson_taskToJson (t : Task) : taskOfJson (taskToJson t) = some t :=
  rfl

theorem commentOfJson_commentToJson (c : Comment) :
    commentOfJson (commentToJson c) = some c := rfl

theorem decodeEntries_map {α : Type} (dec : Json → Option α) (enc : α → Json)
    (h : ∀ a, dec (enc a) = some a) (l : List (String × α)) :
    decodeEntries dec (l.map (fun p => (p.1, enc p.2))) = some l := by
  induction l with
  | nil => rfl
  | cons a rest ih =>
    obtain ⟨k, v⟩ := a
    simp only [List.map_cons, decodeEntries, h v, ih]

theorem load_data_obj (te ce : List (String × Json)) :
    load_data (.obj [("tasks", .obj te), ("comments", .obj ce)]) =
      (match decodeEntries taskOfJson te, decodeEntries commentOfJson ce with
       | some ts, some cs => some { tasks := ts, comments := cs }
       | _, _ => none) := rfl

/-! ### Sorting lemmas -/

theorem sortCommentsDesc_pairwise (cs : List Comment) :
    (sortCommentsDesc cs).Pairwise
      (fun a b => b.created_at ≤ a.created_at) := by
  have h := @List.sorted_mergeSort Comment
    (fun a b : Comment => decide (b.created_at ≤ a.created_at))
    (fun a b c hab hbc => by
      simp only [decide_eq_true_eq] at *
      exact le_trans hbc hab)
    (fun a b => by
      simp only [Bool.or_eq_true, decide_eq_true_eq]
      exact le_total _ _) cs
  exact h.imp (fun hab => of_decide_eq_true hab)

/-! ### Claim theorems -/

/-- C1: deleting an existing task returns the deleted record plus a
confirmation message with status 200, removes the task from the task
mapping, removes every comment whose `task_id` equals the deleted id,
and leaves every comment whose `task_id` differs unchanged. -/
theorem delete_task_cascades (task_id : String) (st : Store) (t : Task)
    (h : lookupKey st.tasks task_id = some t) :
    ∃ st',
      delete_task task_id st =
          .ok ((.obj [("message", .str "Task deleted successfully"),
                      ("task", taskToJson t)], 200), st')
      ∧ lookupKey st'.tasks task_id = none
      ∧ (∀ k c, lookupKey st'.comments k = some c → c.task_id ≠ task_id)
      ∧ (∀ k c, lookupKey st.comments k = some c → c.task_id ≠ task_id →
          lookupKey st'.comments k = some c) := by
  refine ⟨{ tasks := eraseKey st.tasks task_id,
            comments := st.comments.filter (fun p => p.2.task_id ≠ task_id) },
          ?_, ?_, ?_, ?_⟩
  · unfold delete_task
    rw [h]
  · exact lookupKey_eraseKey_self st.tasks task_id
  · intro k c hkc
    exact of_decide_eq_true
      (lookupKey_filter_val (fun c => decide (c.task_id ≠ task_id))
        st.comments k c hkc)
  · intro k c hkc hne
    exact lookupKey_filter_val_of (fun c => decide (c.task_id ≠ task_id))
      st.comments k c hkc (decide_eq_true hne)

/-- C1 witness: a concrete store with the task `"t1"`, one comment on it
and one comment on another task. -/
theorem delete_task_cascades_witness :
    lookupKey (Store.mk
        [("t1", ⟨"t1", .str "A", .str "", "T0"⟩)]
        [("c1", ⟨"c1", "t1", .str "x", .str "Anonymous", "T1", "T1"⟩),
         ("c2", ⟨"c2", "t2", .str "y", .str "Anonymous", "T2", "T2"⟩)]).tasks
      "t1" = some ⟨"t1", .str "A", .str "", "T0"⟩
    ∧ (∃ st',
        delete_task "t1" (Store.mk
          [("t1", ⟨"t1", .str "A", .str "", "T0"⟩)]
          [("c1", ⟨"c1", "t1", .str "x", .str "Anonymous", "T1", "T1"⟩),
           ("c2", ⟨"c2", "t2", .str "y", .str "Anonymous", "T2", "T2"⟩)]) =
            .ok ((.obj [("message", .str "Task deleted successfully"),
                        ("task", taskToJson ⟨"t1", .str "A", .str "", "T0"⟩)],
                  200), st')
        ∧ lookupKey st'.tasks "t1" = none
        ∧ (∀ k c, lookupKey st'.comments k = some c → c.task_id ≠ "t1")
        ∧ (∀ k c, lookupKey (Store.mk
              [("t1", ⟨"t1", .str "A", .str "", "T0"⟩)]
              [("c1", ⟨"c1", "t1", .str "x", .str "Anonymous", "T1", "T1"⟩),
               ("c2", ⟨"c2", "t2", .str "y", .str "Anonymous", "T2", "T2"⟩)]).comments
              k = some c → c.task_id ≠ "t1" → lookupKey st'.comments k = some c)) :=
  ⟨rfl, delete_task_cascades "t1" _ _ rfl⟩

/-- C2 counterexample: a create-task request whose title is whitespace
only (`"   "` strips to empty) is not rejected — it returns 201 and a
task is added to the mapping. -/
theorem create_task_blank_title_cex :
    (pyStrip "   ").isEmpty = true
    ∧ create_task [("title", .str "   ")] "id1" "T0"
        { tasks := [], comments := [] } =
      .ok ((taskToJson ⟨"id1", .str "   ", .str "", "T0"⟩, 201),
           { tasks := [("id1", ⟨"id1", .str "   ", .str "", "T0"⟩)],
             comments := [] })
    ∧ (201 : Nat) ≠ 400 := ⟨by decide, rfl, by decide⟩

/-- C2 (amended): create-task accepts a whitespace-only title — when the
payload's `title` is a string that is empty after stripping, the request
succeeds with 201 and the task is stored with the title verbatim; only
the absence of the `title` key is rejected on the create path. -/
theorem create_task_accepts_blank_title (data : Payload) (newId now : String)
    (st : Store) (s : String)
    (htitle : lookupKey data "title" = some (.str s))
    (hblank : (pyStrip s).isEmpty = true)
    (hfresh : lookupKey st.tasks newId = none) :
    ∃ st',
      create_task data newId now st =
          .ok ((taskToJson ⟨newId, .str s,
                  (lookupKey data "description").getD (.str ""), now⟩, 201), st')
      ∧ lookupKey st'.tasks newId =
          some ⟨newId, .str s,
                (lookupKey data "description").getD (.str ""), now⟩ := by
  refine ⟨Store.mk
            (insertKey st.tasks newId
              (Task.mk newId (.str s)
                ((lookupKey data "description").getD (.str "")) now))
            st.comments, ?_, ?_⟩
  · unfold create_task
    rw [lookupKey_isEmpty_false htitle, htitle]
    rfl
  · exact lookupKey_insertKey_fresh _ hfresh

/-- C2 amended witness: whitespace-only title `" "` accepted at 201 on an
empty store. -/
theorem create_task_accepts_blank_title_witness :
    lookupKey [(("title" : String), Json.str " ")] "title" = some (.str " ")
    ∧ (pyStrip " ").isEmpty = true
    ∧ lookupKey (Store.mk [] []).tasks "id1" = none
    ∧ (∃ st',
        create_task [("title", .str " ")] "id1" "T0" (Store.mk [] []) =
            .ok ((taskToJson ⟨"id1", .str " ",
                    (lookupKey [(("title" : String), Json.str " ")]
                      "description").getD (.str ""), "T0"⟩, 201), st')
        ∧ lookupKey st'.tasks "id1" =
            some ⟨"id1", .str " ",
                  (lookupKey [(("title" : String), Json.str " ")]
                    "description").getD (.str ""), "T0"⟩) :=
  ⟨rfl, by decide, rfl,
   create_task_accepts_blank_title _ _ _ _ _ rfl (by decide) rfl⟩

/-- C3: serializing the store with `save_data` and deserializing with
`load_data` yields mappings identical in content to the originals, for
all fields of every task and comment. -/
theorem load_save_roundtrip (st : Store) : load_data (save_data st) = some st := by
  unfold save_data
  rw [load_data_obj, decodeEntries_map taskOfJson taskToJson
        taskOfJson_taskToJson,
      decodeEntries_map commentOfJson commentToJson
        commentOfJson_commentToJson]

/-- C4: creating a comment with non-blank string content succeeds with
201 for any store — no check against the task mapping — and the stored
comment's `task_id` equals the task id from the path. -/
theorem create_comment_no_task_check (task_id : String) (data : Payload)
    (newId now1 now2 : String) (st : Store) (s : String)
    (hcontent : lookupKey data "content" = some (.str s))
    (hblank : (pyStrip s).isEmpty = false)
    (hfresh : lookupKey st.comments newId = none) :
    ∃ c st',
      create_comment task_id data newId now1 now2 st =
          .ok ((commentToJson c, 201), st')
      ∧ lookupKey st'.comments newId = some c
      ∧ c.task_id = task_id
      ∧ c.content = .str s := by
  refine ⟨Comment.mk newId task_id (.str s)
            ((lookupKey data "author").getD (.str "Anonymous")) now1 now2,
          Store.mk st.tasks
            (insertKey st.comments newId
              (Comment.mk newId task_id (.str s)
                ((lookupKey data "author").getD (.str "Anonymous")) now1 now2)),
          ?_, ?_, rfl, rfl⟩
  · unfold create_comment
    rw [lookupKey_isEmpty_false hcontent, hcontent]
    simp [hblank]
  · exact lookupKey_insertKey_fresh _ hfresh

/-- C4 witness: a comment created under task id `"ghost"` on a store
whose task mapping is empty (the task does not exist). -/
theorem create_comment_no_task_check_witness :
    lookupKey (Store.mk [] []).tasks "ghost" = none
    ∧ lookupKey [(("content" : String), Json.str "hi")] "content" =
        some (.str "hi")
    ∧ (pyStrip "hi").isEmpty = false
    ∧ lookupKey (Store.mk [] []).comments "c1" = none
    ∧ (∃ (c : Comment) (st' : Store),
        create_comment "ghost" [("content", .str "hi")] "c1" "T1" "T2"
            (Store.mk [] []) = .ok ((commentToJson c, 201), st')
        ∧ lookupKey st'.comments "c1" = some c
        ∧ c.task_id = "ghost"
        ∧ c.content = .str "hi") :=
  ⟨rfl, rfl, by decide, rfl,
   create_comment_no_task_check "ghost" _ _ _ _ _ _ rfl (by decide) rfl⟩

/-- C5: listing comments for any task id never errors: it returns 200,
the unchanged store, and an envelope with the task id, exactly the
comments whose `task_id` matches (a permutation of the filtered comment
values) sorted by `created_at` descending, and a count equal to the
length of that list (hence 0 when nothing matches). -/
theorem get_comments_never_fails (task_id : String) (st : Store) :
    ∃ cs : List Comment,
      get_comments task_id st =
          .ok ((.obj [("task_id", .str task_id),
                      ("comments", .arr (cs.map commentToJson)),
                      ("count", .num (cs.length : Int))], 200), st)
      ∧ cs.Perm ((st.comments.map Prod.snd).filter
          (fun c => c.task_id = task_id))
      ∧ cs.Pairwise (fun a b => b.created_at ≤ a.created_at)
      ∧ cs.length = ((st.comments.map Prod.snd).filter
          (fun c => c.task_id = task_id)).length := by
  refine ⟨sortCommentsDesc (get_comments_by_task st task_id), rfl, ?_, ?_, ?_⟩
  · exact List.mergeSort_perm _ _
  · exact sortCommentsDesc_pairwise _
  · exact (List.mergeSort_perm _ _).length_eq

/-- C6: updating an existing comment with a non-empty payload that
contains neither `content` nor `author` (only unrecognized keys)
succeeds with 200, refreshes `updated_at` to the current reading, and
leaves `content` and `author` (and all other fields) unchanged. -/
theorem update_comment_refreshes_updated_at (comment_id : String)
    (data : Payload) (now : String) (st : Store) (c : Comment)
    (hc : lookupKey st.comments comment_id = some c)
    (hne : data.isEmpty = false)
    (hcontent : lookupKey data "content" = none)
    (hauthor : lookupKey data "author" = none) :
    ∃ st',
      update_comment comment_id data now st =
          .ok ((commentToJson
                  (Comment.mk c.id c.task_id c.content c.author c.created_at
                    now), 200), st')
      ∧ lookupKey st'.comments comment_id =
          some (Comment.mk c.id c.task_id c.content c.author c.created_at
                  now) := by
  refine ⟨Store.mk st.tasks
            (setKey st.comments comment_id
              (Comment.mk c.id c.task_id c.content c.author c.created_at now)),
          ?_, ?_⟩
  · unfold update_comment
    rw [hc]
    simp [hne, hcontent, hauthor, finishCommentUpdate]
  · rw [lookupKey_setKey, hc]
    rfl

/-- C6 witness: a payload holding only the unrecognized key `"extra"`. -/
theorem update_comment_refreshes_updated_at_witness :
    lookupKey (Store.mk []
        [("c1", Comment.mk "c1" "t1" (.str "x") (.str "a") "T1" "T1")]).comments
      "c1" = some (Comment.mk "c1" "t1" (.str "x") (.str "a") "T1" "T1")
    ∧ ([(("extra" : String), Json.null)] : Payload).isEmpty = false
    ∧ lookupKey [(("extra" : String), Json.null)] "content" = none
    ∧ lookupKey [(("extra" : String), Json.null)] "author" = none
    ∧ (∃ st',
        update_comment "c1" [("extra", Json.null)] "T9"
            (Store.mk []
              [("c1", Comment.mk "c1" "t1" (.str "x") (.str "a") "T1" "T1")]) =
            .ok ((commentToJson
                    (Comment.mk "c1" "t1" (.str "x") (.str "a") "T1" "T9"),
                  200), st')
        ∧ lookupKey st'.comments "c1" =
            some (Comment.mk "c1" "t1" (.str "x") (.str "a") "T1" "T9")) :=
  ⟨rfl, rfl, rfl, rfl,
   update_comment_refreshes_updated_at "c1" [("extra", Json.null)] "T9"
     (Store.mk []
       [("c1", Comment.mk "c1" "t1" (.str "x") (.str "a") "T1" "T1")])
     (Comment.mk "c1" "t1" (.str "x") (.str "a") "T1" "T1") rfl rfl rfl rfl⟩

/-- C7 counterexample: `create_comment` takes two separate clock
readings; when they differ (here `"T1"` and `"T2"`), the stored
comment's `created_at` and `updated_at` are not equal, so the claimed
unconditional equality fails. -/
theorem create_comment_distinct_clock_readings_cex :
    ∃ (c : Comment) (st' : Store),
      create_comment "t1" [("content", .str "hi")] "c1" "T1" "T2"
          (Store.mk [] []) = .ok ((commentToJson c, 201), st')
      ∧ c.created_at ≠ c.updated_at := by
  refine ⟨Comment.mk "c1" "t1" (.str "hi") (.str "Anonymous") "T1" "T2",
          Store.mk []
            [("c1", Comment.mk "c1" "t1" (.str "hi") (.str "Anonymous")
                      "T1" "T2")],
          rfl, by decide⟩

/-- C7 (amended): `created_at` and `updated_at` come from two separate
clock readings taken during creation; whenever those readings return
the same timestamp string, the two stored fields are equal. -/
theorem create_comment_equal_readings_equal_timestamps (task_id : String)
    (data : Payload) (newId now : String) (st : Store) (s : String)
    (hcontent : lookupKey data "content" = some (.str s))
    (hblank : (pyStrip s).isEmpty = false) :
    ∃ (c : Comment) (st' : Store),
      create_comment task_id data newId now now st =
          .ok ((commentToJson c, 201), st')
      ∧ c.created_at = c.updated_at := by
  refine ⟨Comment.mk newId task_id (.str s)
            ((lookupKey data "author").getD (.str "Anonymous")) now now,
          Store.mk st.tasks
            (insertKey st.comments newId
              (Comment.mk newId task_id (.str s)
                ((lookupKey data "author").getD (.str "Anonymous")) now now)),
          ?_, rfl⟩
  unfold create_comment
  rw [lookupKey_isEmpty_false hcontent, hcontent]
  simp [hblank]

/-- C7 amended witness: equal readings `"T1"`, `"T1"`. -/
theorem create_comment_equal_readings_witness :
    lookupKey [(("content" : String), Json.str "hi")] "content" =
      some (.str "hi")
    ∧ (pyStrip "hi").isEmpty = false
    ∧ (∃ (c : Comment) (st' : Store),
        create_comment "t1" [("content", .str "hi")] "c1" "T1" "T1"
            (Store.mk [] []) = .ok ((commentToJson c, 201), st')
        ∧ c.created_at = c.updated_at) :=
  ⟨rfl, by decide,
   create_comment_equal_readings_equal_timestamps "t1" _ "c1" "T1" _ "hi"
     rfl (by decide)⟩

/-- C8: get, update, and delete on an id absent from the relevant
mapping return 404 with the corresponding error message, and the store
is returned unchanged in every case. -/
theorem not_found_404_no_mutation (task_id comment_id : String)
    (data : Payload) (now : String) (st : Store)
    (ht : lookupKey st.tasks task_id = none)
    (hc : lookupKey st.comments comment_id = none) :
    get_task task_id st = .ok ((errBody "Task not found", 404), st)
    ∧ update_task task_id data st = .ok ((errBody "Task not found", 404), st)
    ∧ delete_task task_id st = .ok ((errBody "Task not found", 404), st)
    ∧ get_comment comment_id st = .ok ((errBody "Comment not found", 404), st)
    ∧ update_comment comment_id data now st =
        .ok ((errBody "Comment not found", 404), st)
    ∧ delete_comment comment_id st =
        .ok ((errBody "Comment not found", 404), st) := by
  refine ⟨?_, ?_, ?_, ?_, ?_, ?_⟩
  · unfold get_task
    rw [ht]
  · unfold update_task
    rw [ht]
  · unfold delete_task
    rw [ht]
  · unfold get_comment
    rw [hc]
  · unfold update_comment
    rw [hc]
  · unfold delete_comment
    rw [hc]

/-- C8 witness: unknown ids on an empty store, with a non-empty
payload. -/
theorem not_found_404_no_mutation_witness :
    lookupKey (Store.mk [] []).tasks "nope" = none
    ∧ lookupKey (Store.mk [] []).comments "nada" = none
    ∧ (get_task "nope" (Store.mk [] []) =
        .ok ((errBody "Task not found", 404), Store.mk [] [])
      ∧ update_task "nope" [("title", .str "x")] (Store.mk [] []) =
          .ok ((errBody "Task not found", 404), Store.mk [] [])
      ∧ delete_task "nope" (Store.mk [] []) =
          .ok ((errBody "Task not found", 404), Store.mk [] [])
      ∧ get_comment "nada" (Store.mk [] []) =
          .ok ((errBody "Comment not found", 404), Store.mk [] [])
      ∧ update_comment "nada" [("title", .str "x")] "T0" (Store.mk [] []) =
          .ok ((errBody "Comment not found", 404), Store.mk [] [])
      ∧ delete_comment "nada" (Store.mk [] []) =
          .ok ((errBody "Comment not found", 404), Store.mk [] [])) :=
  ⟨rfl, rfl,
   not_found_404_no_mutation "nope" "nada" [("title", .str "x")] "T0"
     (Store.mk [] []) rfl rfl⟩

/-- C9: updating an existing task with a payload holding only the
`description` key succeeds with 200; the stored description becomes the
given value while `id`, `title`, and `created_at` are unchanged. -/
theorem update_task_description_only (task_id : String) (v : Json)
    (st : Store) (t : Task)
    (h : lookupKey st.tasks task_id = some t) :
    ∃ st',
      update_task task_id [("description", v)] st =
          .ok ((taskToJson (Task.mk t.id t.title v t.created_at), 200), st')
      ∧ lookupKey st'.tasks task_id =
          some (Task.mk t.id t.title v t.created_at) := by
  refine ⟨Store.mk
            (setKey st.tasks task_id (Task.mk t.id t.title v t.created_at))
            st.comments, ?_, ?_⟩
  · unfold update_task finishTaskUpdate
    rw [h]
    rfl
  · rw [lookupKey_setKey, h]
    rfl

/-- C9 witness: replacing the description with the empty string. -/
theorem update_task_description_only_witness :
    lookupKey (Store.mk [("t1", Task.mk "t1" (.str "A") (.str "d") "T0")]
        []).tasks "t1" = some (Task.mk "t1" (.str "A") (.str "d") "T0")
    ∧ (∃ st',
        update_task "t1" [("description", .str "")]
            (Store.mk [("t1", Task.mk "t1" (.str "A") (.str "d") "T0")] []) =
            .ok ((taskToJson (Task.mk "t1" (.str "A") (.str "") "T0"), 200),
                 st')
        ∧ lookupKey st'.tasks "t1" =
            some (Task.mk "t1" (.str "A") (.str "") "T0")) :=
  ⟨rfl, update_task_description_only "t1" (.str "")
          (Store.mk [("t1", Task.mk "t1" (.str "A") (.str "d") "T0")] [])
          (Task.mk "t1" (.str "A") (.str "d") "T0") rfl⟩

/-- C10: when a payload supplies a non-string value under `title`
(update-task) or `content` (create-comment, update-comment), the
`.strip()` call raises an unhandled exception instead of producing a
400 response; create-task, which never strips, accepts a non-string
title and stores it verbatim with 201. -/
theorem non_string_strip_raises :
    update_task "t1" [("title", .num 5)]
        (Store.mk [("t1", Task.mk "t1" (.str "A") (.str "") "T0")] []) =
      .error .attributeError
    ∧ create_comment "t1" [("content", .null)] "c9" "T1" "T2"
        (Store.mk [] []) = .error .attributeError
    ∧ update_comment "c1" [("content", .jsonBool true)] "T3"
        (Store.mk []
          [("c1", Comment.mk "c1" "t1" (.str "x") (.str "a") "T1" "T1")]) =
      .error .attributeError
    ∧ create_task [("title", .num 5)] "id2" "T4" (Store.mk [] []) =
        .ok ((taskToJson (Task.mk "id2" (.num 5) (.str "") "T4"), 201),
             Store.mk [("id2", Task.mk "id2" (.num 5) (.str "") "T4")] []) :=
  ⟨rfl, rfl, rfl, rfl⟩

end TaskApp
